import Mathlib

/-!
Verification development for the coal-fired power plant simulator
(`app.py`, `rankine_model.py`).

The repository wires a Rankine cycle in the TESPy equation-oriented
simulation library: components (cycle closer, steam generator, turbine,
condenser, feed pump, cooling water source/sink), connections c0..c4 and
c11/c12, boundary conditions, a call to `nw.solve` and KPI arithmetic on
the converged values.  The UI layer (`app.py` sliders) and the KPI
formulas are embedded here directly from the source.  The numerical
solver and the fluid property provider live in the third-party library,
not in the repository sources; following the specification they are
modelled as a residual system (`IsConverged`), steam-table constants at
the boundary states of the example scenario, and a status-returning
solve model (`solveModel`).  All quantities are rationals: temperatures
in °C, pressures in bar, specific enthalpies in kJ/kg, mass flows in
kg/s, so powers and heat duties come out in kW exactly as in the
`/1e3`-scaled KPI block of `app.py`.
-/

namespace CoalPlant

/-! ## UI layer: slider and number-input bounds from `app.py` lines 20-41 -/

/-- The sidebar inputs of `app.py`.  `boiler_eff_pct` is the raw slider
value in percent; the code divides it by 100. -/
structure UIInputs where
  T_steam : ℚ
  p_steam : ℚ
  m_steam : ℚ
  p_cond : ℚ
  T_cw_in : ℚ
  T_cw_out : ℚ
  p_cw : ℚ
  eta_turbine : ℚ
  eta_pump : ℚ
  coal_cv : ℚ
  boiler_eff_pct : ℚ

/-- `boiler_eff = st.sidebar.slider("Boiler Efficiency (%)", 50, 100, 85, step=1) / 100`. -/
def boiler_eff (u : UIInputs) : ℚ := u.boiler_eff_pct / 100

/-- The set of inputs reachable through the sidebar: each slider and
number input clamps its value between its declared minimum and maximum.
The lower bound of the cooling water outlet slider is `T_cw_in + 1.0`. -/
def ReachableUI (u : UIInputs) : Prop :=
  400 ≤ u.T_steam ∧ u.T_steam ≤ 650 ∧
  50 ≤ u.p_steam ∧ u.p_steam ≤ 300 ∧
  400 ≤ u.m_steam ∧ u.m_steam ≤ 800 ∧
  1/100 ≤ u.p_cond ∧ u.p_cond ≤ 2 ∧
  5 ≤ u.T_cw_in ∧ u.T_cw_in ≤ 40 ∧
  u.T_cw_in + 1 ≤ u.T_cw_out ∧ u.T_cw_out ≤ 60 ∧
  0 ≤ u.p_cw ∧ u.p_cw ≤ 10 ∧
  7/10 ≤ u.eta_turbine ∧ u.eta_turbine ≤ 1 ∧
  1/2 ≤ u.eta_pump ∧ u.eta_pump ≤ 1 ∧
  1000 ≤ u.coal_cv ∧ u.coal_cv ≤ 40000 ∧
  50 ≤ u.boiler_eff_pct ∧ u.boiler_eff_pct ≤ 100

/-! ## Network construction: `run_rankine` from `app.py` lines 44-82 -/

/-- The specification ledger produced by `run_rankine` before solving:
every connection boundary condition set by `set_attr` and every fixed
component parameter.  Field names follow the connection labels and
component short names of the source. -/
structure NetworkSpec where
  c1_T : ℚ
  c1_p : ℚ
  c1_m : ℚ
  c1_water : ℚ
  c2_p : ℚ
  c11_T : ℚ
  c11_p : ℚ
  c11_water : ℚ
  c12_T : ℚ
  tu_eta_s : ℚ
  fp_eta_s : ℚ
  mc_pr1 : ℚ
  mc_pr2 : ℚ
  sg_pr : ℚ

/-- Embedding of `run_rankine(T_steam, p_steam, m_steam, p_cond, T_cw_in,
T_cw_out, p_cw, eta_turbine, eta_pump)`: the component parameters
`mc.set_attr(pr1=1, pr2=0.98)`, `sg.set_attr(pr=0.9)`,
`tu.set_attr(eta_s=eta_turbine)`, `fp.set_attr(eta_s=eta_pump)` and the
boundary conditions `c1.set_attr(T, p, m, fluid)`, `c2.set_attr(p)`,
`c11.set_attr(T, p, fluid)`, `c12.set_attr(T)`. -/
def run_rankine (T_steam p_steam m_steam p_cond T_cw_in T_cw_out p_cw
    eta_turbine eta_pump : ℚ) : NetworkSpec :=
  { c1_T := T_steam
    c1_p := p_steam
    c1_m := m_steam
    c1_water := 1
    c2_p := p_cond
    c11_T := T_cw_in
    c11_p := p_cw
    c11_water := 1
    c12_T := T_cw_out
    tu_eta_s := eta_turbine
    fp_eta_s := eta_pump
    mc_pr1 := 1
    mc_pr2 := 98/100
    sg_pr := 9/10 }

/-! ## Fluid property values, modelled from the spec

The fluid property provider (state equations for water/steam) is part of
the third-party library, not of the repository sources.  The spec fixes
its contract (section 4.1) and the reference value at the example
boundary state (section 8: superheated steam at 600 °C / 150 bar, about
3580 kJ/kg).  The constants below are the table values the provider
returns at the boundary states of the example scenario. -/

/-- Modelled from the spec: superheated steam table enthalpy at
600 °C / 150 bar, the ~3580 kJ/kg reference of section 8. -/
def h_steam_600C_150bar : ℚ := 3580

/-- Modelled from the spec: enthalpy after an ideal (isentropic)
expansion from the live steam state down to the condenser pressure
0.1 bar, used by the turbine efficiency residual of section 4.2. -/
def h_isen_exhaust_01bar : ℚ := 2075

/-- Modelled from the spec: saturated liquid enthalpy at 0.1 bar, the
state of the condensate leaving the condenser hot side (the two-phase
region support of section 4.1; condensation completes at the outlet). -/
def h_satliq_01bar : ℚ := 192

/-- Modelled from the spec: enthalpy after an ideal (isentropic)
compression of the condensate from 0.1 bar to the boiler feed pressure,
used by the pump efficiency residual of section 4.2. -/
def h_isen_feed : ℚ := 1044/5

/-- Modelled from the spec: cooling water enthalpy at the inlet state
20 °C / 1.2 bar (incompressible liquid model of section 4.1). -/
def h_cw_inlet : ℚ := 84

/-- Modelled from the spec: cooling water enthalpy at the outlet state
30 °C / 1.176 bar (incompressible liquid model of section 4.1). -/
def h_cw_outlet : ℚ := 1257/10

/-- Modelled from the spec: incompressible liquid enthalpy of cooling
water as a function of temperature, h = cp * T with cp = 4.18 kJ/(kg K)
(section 4.1 allows a simpler incompressible liquid model for cooling
water; enthalpy grows monotonically with temperature). -/
def h_cw (T : ℚ) : ℚ := 418/100 * T

/-! ## Converged network state, modelled from the spec

One rational per state variable of each connection of `run_rankine`:
the main loop c0 (steam generator outlet), c1 (cycle closer outlet /
turbine inlet), c2 (turbine exhaust), c3 (condensate), c4 (feed water)
and the cooling water pair c11/c12. -/

/-- State variables of all connections of the network built by
`run_rankine`: mass flow (kg/s), pressure (bar) and specific enthalpy
(kJ/kg) per connection. -/
@[ext]
structure RankineState where
  m0 : ℚ
  m1 : ℚ
  m2 : ℚ
  m3 : ℚ
  m4 : ℚ
  m11 : ℚ
  m12 : ℚ
  p0 : ℚ
  p1 : ℚ
  p2 : ℚ
  p3 : ℚ
  p4 : ℚ
  p11 : ℚ
  p12 : ℚ
  h0 : ℚ
  h1 : ℚ
  h2 : ℚ
  h3 : ℚ
  h4 : ℚ
  h11 : ℚ
  h12 : ℚ

/-- Modelled from the spec: the residual system of sections 4.2-4.5 for
the network of `run_rankine`, instantiated at the example boundary
conditions T=600 °C, p=150 bar, m=532 kg/s, p_cond=0.1 bar,
T_cw_in=20 °C, T_cw_out=30 °C, p_cw=1.2 bar, with the turbine and pump
isentropic efficiencies `e_t` and `e_p` left as parameters.  A state
satisfies `IsConverged` exactly when every boundary condition and every
component residual holds: this is the zero-residual condition the
Newton solver (not part of the repository sources) drives the state to. -/
structure IsConverged (e_t e_p : ℚ) (s : RankineState) : Prop where
  /-- boundary condition c1.set_attr(m=532) -/
  bc_m1 : s.m1 = 532
  /-- boundary condition c1.set_attr(p=150) -/
  bc_p1 : s.p1 = 150
  /-- boundary condition c1.set_attr(T=600): property lookup at
  600 °C / 150 bar pins the enthalpy to the table value -/
  bc_h1 : s.h1 = h_steam_600C_150bar
  /-- boundary condition c2.set_attr(p=0.1) -/
  bc_p2 : s.p2 = 1/10
  /-- boundary condition c11.set_attr(p=1.2) -/
  bc_p11 : s.p11 = 6/5
  /-- boundary condition c11.set_attr(T=20): cooling water inlet enthalpy -/
  bc_h11 : s.h11 = h_cw_inlet
  /-- boundary condition c12.set_attr(T=30): cooling water outlet enthalpy -/
  bc_h12 : s.h12 = h_cw_outlet
  /-- turbine mass continuity -/
  tu_mass : s.m2 = s.m1
  /-- turbine isentropic efficiency residual:
  h_out = h_in - eta_s * (h_in - h_out_isentropic) -/
  tu_eta : s.h2 = s.h1 - e_t * (s.h1 - h_isen_exhaust_01bar)
  /-- condenser hot side mass continuity -/
  mc_mass1 : s.m3 = s.m2
  /-- condenser hot side pressure residual, pr1 = 1 -/
  mc_pr1 : s.p3 = s.p2 * 1
  /-- condenser hot side outlet is saturated liquid at 0.1 bar -/
  mc_sat : s.h3 = h_satliq_01bar
  /-- condenser cold side mass continuity -/
  mc_mass2 : s.m12 = s.m11
  /-- condenser cold side pressure residual, pr2 = 0.98 -/
  mc_pr2 : s.p12 = s.p11 * (98/100)
  /-- condenser energy balance: heat rejected by the process fluid
  equals heat absorbed by the cooling fluid, adiabatic shell -/
  mc_energy : s.m2 * (s.h2 - s.h3) = s.m11 * (s.h12 - s.h11)
  /-- pump mass continuity -/
  fp_mass : s.m4 = s.m3
  /-- pump isentropic efficiency residual:
  h_out = h_in + (h_out_isentropic - h_in) / eta_s -/
  fp_eta : s.h4 = s.h3 + (h_isen_feed - s.h3) / e_p
  /-- steam generator mass continuity -/
  sg_mass : s.m0 = s.m4
  /-- steam generator pressure residual, pr = 0.9 -/
  sg_pr : s.p0 = s.p4 * (9/10)
  /-- cycle closer pressure pass-through -/
  cc_p : s.p1 = s.p0
  /-- cycle closer enthalpy pass-through -/
  cc_h : s.h1 = s.h0

/-- The closed-form solution of the residual system `IsConverged e_t e_p`:
substituting the boundary conditions through the residual chain pins
every state variable.  The cooling water mass flow comes from the
condenser energy balance divided by the cooling water enthalpy rise. -/
def stateFor (e_t e_p : ℚ) : RankineState :=
  { m0 := 532
    m1 := 532
    m2 := 532
    m3 := 532
    m4 := 532
    m11 := 532 * ((h_steam_600C_150bar - e_t * (h_steam_600C_150bar - h_isen_exhaust_01bar)) - h_satliq_01bar) / (h_cw_outlet - h_cw_inlet)
    m12 := 532 * ((h_steam_600C_150bar - e_t * (h_steam_600C_150bar - h_isen_exhaust_01bar)) - h_satliq_01bar) / (h_cw_outlet - h_cw_inlet)
    p0 := 150
    p1 := 150
    p2 := 1/10
    p3 := 1/10
    p4 := 500/3
    p11 := 6/5
    p12 := (6/5) * (98/100)
    h0 := h_steam_600C_150bar
    h1 := h_steam_600C_150bar
    h2 := h_steam_600C_150bar - e_t * (h_steam_600C_150bar - h_isen_exhaust_01bar)
    h3 := h_satliq_01bar
    h4 := h_satliq_01bar + (h_isen_feed - h_satliq_01bar) / e_p
    h11 := h_cw_inlet
    h12 := h_cw_outlet }

/-- The closed form indeed satisfies every residual. -/
theorem stateFor_converged (e_t e_p : ℚ) : IsConverged e_t e_p (stateFor e_t e_p) := by
  constructor <;>
    simp [stateFor, h_steam_600C_150bar, h_isen_exhaust_01bar, h_satliq_01bar,
      h_isen_feed, h_cw_inlet, h_cw_outlet] <;>
    ring_nf

/-- The residual system has at most one solution for given efficiencies:
every converged state is the closed form. -/
theorem converged_eq_stateFor (e_t e_p : ℚ) (s : RankineState)
    (hc : IsConverged e_t e_p s) : s = stateFor e_t e_p := by
  obtain ⟨bm1, bp1, bh1, bp2, bp11, bh11, bh12, tm, te, m1, mp1, ms, m2, mp2,
    me, fm, fe, gm, gp, cp, ch⟩ := hc
  have hne : h_cw_outlet - h_cw_inlet ≠ 0 := by
    norm_num [h_cw_outlet, h_cw_inlet]
  have me2 := me
  rw [tm, bm1, te, bh1, ms, bh11, bh12] at me2
  have hm11 : s.m11 = 532 * ((h_steam_600C_150bar - e_t * (h_steam_600C_150bar - h_isen_exhaust_01bar)) - h_satliq_01bar) / (h_cw_outlet - h_cw_inlet) := by
    rw [eq_div_iff hne]
    linarith
  have hp4 : s.p4 = 500/3 := by
    have h0 : s.p0 = 150 := by rw [← cp, bp1]
    rw [h0] at gp
    linarith
  ext <;>
    simp [stateFor, bm1, bp1, bh1, bp2, bp11, bh11, bh12, hm11, hp4] <;>
    simp [tm, m1, ms, m2, fm, gm, bm1, mp1, bp2, mp2, bp11, te, bh1, fe,
      gm, ← cp, bp1, ← ch, hm11]

/-! ## Key performance indicators from `app.py` lines 96-102 and 156-160

In TESPy the steam generator heat duty is `Q = m * (h_out - h_in)` over
c4 -> c0, the turbine power `P = m * (h_out - h_in)` over c1 -> c2
(negative, the code takes `abs`), the pump power over c3 -> c4
(positive) and the condenser heat duty over c2 -> c3 (negative, the
code takes `abs`).  With enthalpies in kJ/kg and mass flow in kg/s
these are the kW values of the `/1e3`-scaled KPI block. -/

/-- `boiler_heat_duty = comps[0].Q.val / 1000`: heat duty of the steam
generator in kW. -/
def boiler_heat_duty (s : RankineState) : ℚ := s.m4 * (s.h0 - s.h4)

/-- `turbine_power = abs(comps[1].P.val/1e3)`: turbine power in kW,
absolute value. -/
def turbine_power (s : RankineState) : ℚ := |s.m1 * (s.h2 - s.h1)|

/-- `pump_power = comps[2].P.val/1e3`: feed pump power in kW. -/
def pump_power (s : RankineState) : ℚ := s.m3 * (s.h4 - s.h3)

/-- `net_power_output = turbine_power - pump_power` in kW. -/
def net_power_output (s : RankineState) : ℚ := turbine_power s - pump_power s

/-- `condenser_heat_mw = abs(comps[3].Q.val / 1e6)`: condenser heat
duty, absolute value (kept in kW here alongside the other KPIs). -/
def condenser_heat (s : RankineState) : ℚ := |s.m2 * (s.h3 - s.h2)|

/-- `thermal_efficiency = (net_power_output * 1000) / comps[0].Q.val * 100` in %. -/
def thermal_efficiency (s : RankineState) : ℚ :=
  net_power_output s / boiler_heat_duty s * 100

/-- `coal_flow = boiler_heat_duty / (coal_cv * boiler_eff)` in kg/s. -/
def coal_flow (u : UIInputs) (s : RankineState) : ℚ :=
  boiler_heat_duty s / (u.coal_cv * boiler_eff u)

/-! ## KPI values at the closed-form converged state -/

/-- Turbine power at the closed form: the expansion lowers the enthalpy
by `e_t` times the isentropic drop of 1505 kJ/kg. -/
theorem turbine_power_stateFor (e_t e_p : ℚ) (h0 : 0 ≤ e_t) :
    turbine_power (stateFor e_t e_p) = 532 * (1505 * e_t) := by
  unfold turbine_power stateFor
  simp only [h_steam_600C_150bar, h_isen_exhaust_01bar]
  rw [abs_of_nonpos (by linarith)]
  ring

/-- Pump power at the closed form. -/
theorem pump_power_stateFor (e_t e_p : ℚ) :
    pump_power (stateFor e_t e_p) = 532 * ((84/5) / e_p) := by
  unfold pump_power stateFor
  simp only [h_satliq_01bar, h_isen_feed]
  ring

/-- Condenser heat duty at the closed form. -/
theorem condenser_heat_stateFor (e_t e_p : ℚ) (h1 : e_t ≤ 1) :
    condenser_heat (stateFor e_t e_p) = 532 * (3388 - 1505 * e_t) := by
  unfold condenser_heat stateFor
  simp only [h_steam_600C_150bar, h_isen_exhaust_01bar, h_satliq_01bar]
  rw [abs_of_nonpos (by linarith)]
  ring

/-- Boiler heat duty at the closed form. -/
theorem boiler_heat_duty_stateFor (e_t e_p : ℚ) :
    boiler_heat_duty (stateFor e_t e_p) = 532 * (3388 - (84/5) / e_p) := by
  unfold boiler_heat_duty stateFor
  simp only [h_steam_600C_150bar, h_satliq_01bar, h_isen_feed]
  ring

/-! ## Solve model, modelled from the spec

The Newton iteration, the degrees-of-freedom validation and the
property range checks live in the third-party library.  Sections 4.5-7
of the spec fix their interface: `solve()` ends in a terminal status,
derived results are readable only after `Converged`, and a property
lookup outside the valid envelope (condenser pressure not above 0)
fails with `OutOfRangeError` instead of clamping. -/

/-- Modelled from the spec: the terminal statuses of section 4.5/6. -/
inductive SolveStatus where
  | Converged
  | Diverged
  | DegreesOfFreedomError
  | OutOfRangeError
  | MaxIterationsExceeded
  deriving DecidableEq

/-- Modelled from the spec: the outcome of `solve()` - a terminal
status paired with the results structure, which is present only on
convergence (section 4.6: accessors fail before `Converged`). -/
structure SolveResult where
  status : SolveStatus
  results : Option RankineState

/-- Modelled from the spec: the solve pipeline.  A condenser pressure
at or below 0 is outside the property envelope and yields
`OutOfRangeError` with the offending specification left untouched
(never clamped).  Inside the example boundary family the unique
zero-residual state is returned with status `Converged`; elsewhere the
model conservatively reports the terminal status `Diverged`, again with
no results. -/
def solveModel (ns : NetworkSpec) : SolveResult :=
  if ns.c2_p ≤ 0 then ⟨SolveStatus.OutOfRangeError, none⟩
  else if ns.c1_T = 600 ∧ ns.c1_p = 150 ∧ ns.c1_m = 532 ∧ ns.c2_p = 1/10 ∧
      ns.c11_T = 20 ∧ ns.c11_p = 6/5 ∧ ns.c12_T = 30 then
    ⟨SolveStatus.Converged, some (stateFor ns.tu_eta_s ns.fp_eta_s)⟩
  else ⟨SolveStatus.Diverged, none⟩

/-- The default sidebar values of `app.py` (with the example cooling
water and efficiency settings), a concrete reachable input. -/
def uExample : UIInputs :=
  { T_steam := 603
    p_steam := 278
    m_steam := 532
    p_cond := 1/10
    T_cw_in := 20
    T_cw_out := 30
    p_cw := 6/5
    eta_turbine := 9/10
    eta_pump := 3/4
    coal_cv := 24000
    boiler_eff_pct := 85 }

/-! ## Claims -/

/-- Claim C1: every error arising during solve or result access is an
explicit status value of the modelled interface, never an uncontrolled
fault (`solveModel` is a total function into `SolveResult`), and a
solve that does not reach `Converged` exposes no derived result values:
its results field is `none`. -/
theorem solve_no_results_unless_converged (ns : NetworkSpec)
    (h : (solveModel ns).status ≠ SolveStatus.Converged) :
    (solveModel ns).results = none := by
  revert h
  unfold solveModel
  split
  · intro _; rfl
  · split
    · intro h; exact absurd rfl h
    · intro _; rfl

theorem solve_no_results_unless_converged_witness :
    (solveModel (run_rankine 600 150 532 0 20 30 (6/5) (9/10) (3/4))).status ≠
        SolveStatus.Converged ∧
    (solveModel (run_rankine 600 150 532 0 20 30 (6/5) (9/10) (3/4))).results = none := by
  have h : (solveModel (run_rankine 600 150 532 0 20 30 (6/5) (9/10) (3/4))).status ≠
      SolveStatus.Converged := by
    simp [solveModel, run_rankine]
  exact ⟨h, solve_no_results_unless_converged _ h⟩

/-- Claim C2, amended: the claimed balance
`boiler_heat_duty = turbine_power + condenser_heat` omits the feed pump
work, which enters on the boiler side; the balance that actually holds
at every converged state, exactly, is
`boiler_heat_duty + pump_power = turbine_power + condenser_heat`. -/
theorem energy_balance_with_pump (e_t e_p : ℚ) (s : RankineState)
    (hc : IsConverged e_t e_p s) (h0 : 0 ≤ e_t) (h1 : e_t ≤ 1) :
    boiler_heat_duty s + pump_power s = turbine_power s + condenser_heat s := by
  obtain rfl := converged_eq_stateFor e_t e_p s hc
  rw [boiler_heat_duty_stateFor, pump_power_stateFor,
    turbine_power_stateFor e_t e_p h0, condenser_heat_stateFor e_t e_p h1]
  ring

theorem energy_balance_with_pump_witness :
    (0:ℚ) ≤ 9/10 ∧ (9:ℚ)/10 ≤ 1 ∧
    boiler_heat_duty (stateFor (9/10) (3/4)) + pump_power (stateFor (9/10) (3/4)) =
      turbine_power (stateFor (9/10) (3/4)) + condenser_heat (stateFor (9/10) (3/4)) :=
  ⟨by norm_num, by norm_num,
    energy_balance_with_pump (9/10) (3/4) _ (stateFor_converged _ _)
      (by norm_num) (by norm_num)⟩

/-- Claim C2, counterexample to the claim as stated: at the converged
state of the example scenario the gap
`boiler_heat_duty - (turbine_power + condenser_heat)` equals the pump
power, 11916.8 kW, far outside any solver tolerance. -/
theorem energy_balance_as_stated_false :
    IsConverged (9/10) (3/4) (stateFor (9/10) (3/4)) ∧
    ¬ (|boiler_heat_duty (stateFor (9/10) (3/4)) -
        (turbine_power (stateFor (9/10) (3/4)) +
          condenser_heat (stateFor (9/10) (3/4)))| ≤ 1/1000) := by
  refine ⟨stateFor_converged _ _, ?_⟩
  rw [boiler_heat_duty_stateFor, turbine_power_stateFor _ _ (by norm_num),
    condenser_heat_stateFor _ _ (by norm_num)]
  rw [abs_of_nonpos (by norm_num)]
  norm_num

/-- Claim C3: for the example input set the solve converges, the boiler
outlet enthalpy is the superheated steam table value at 600 °C / 150 bar
(about 3580 kJ/kg, within tolerance), and the net power output is
strictly positive. -/
theorem example_scenario_results (s : RankineState)
    (hc : IsConverged (9/10) (3/4) s) :
    (solveModel (run_rankine 600 150 532 (1/10) 20 30 (6/5) (9/10) (3/4))).status =
        SolveStatus.Converged ∧
    s.h1 = h_steam_600C_150bar ∧ |s.h1 - 3580| ≤ 5 ∧ 0 < net_power_output s := by
  obtain rfl := converged_eq_stateFor _ _ s hc
  refine ⟨by norm_num [solveModel, run_rankine], rfl,
    by norm_num [stateFor, h_steam_600C_150bar], ?_⟩
  unfold net_power_output
  rw [turbine_power_stateFor _ _ (by norm_num), pump_power_stateFor]
  norm_num

theorem example_scenario_results_witness :
    (solveModel (run_rankine 600 150 532 (1/10) 20 30 (6/5) (9/10) (3/4))).status =
        SolveStatus.Converged ∧
    (stateFor (9/10) (3/4)).h1 = h_steam_600C_150bar ∧
    |(stateFor (9/10) (3/4)).h1 - 3580| ≤ 5 ∧
    0 < net_power_output (stateFor (9/10) (3/4)) :=
  example_scenario_results _ (stateFor_converged _ _)

/-- Claim C4: a condenser pressure boundary condition of 0 is stored
exactly as given (never clamped into range) and the solve fails with
`OutOfRangeError`, exposing no results. -/
theorem condenser_pressure_zero_fails :
    (run_rankine 600 150 532 0 20 30 (6/5) (9/10) (3/4)).c2_p = 0 ∧
    solveModel (run_rankine 600 150 532 0 20 30 (6/5) (9/10) (3/4)) =
      ⟨SolveStatus.OutOfRangeError, none⟩ := by
  constructor
  · rfl
  · simp [solveModel, run_rankine]

/-- Claim C5: `run_rankine` accepts exactly the nine recognized
configuration options, each a rational, and applies every one as a
boundary condition or component parameter of the network specification
before solving (together with the fixed fluid compositions and pressure
ratios of the source). -/
theorem run_rankine_applies_inputs (T_steam p_steam m_steam p_cond T_cw_in
    T_cw_out p_cw eta_turbine eta_pump : ℚ) :
    (run_rankine T_steam p_steam m_steam p_cond T_cw_in T_cw_out p_cw
        eta_turbine eta_pump).c1_T = T_steam ∧
    (run_rankine T_steam p_steam m_steam p_cond T_cw_in T_cw_out p_cw
        eta_turbine eta_pump).c1_p = p_steam ∧
    (run_rankine T_steam p_steam m_steam p_cond T_cw_in T_cw_out p_cw
        eta_turbine eta_pump).c1_m = m_steam ∧
    (run_rankine T_steam p_steam m_steam p_cond T_cw_in T_cw_out p_cw
        eta_turbine eta_pump).c2_p = p_cond ∧
    (run_rankine T_steam p_steam m_steam p_cond T_cw_in T_cw_out p_cw
        eta_turbine eta_pump).c11_T = T_cw_in ∧
    (run_rankine T_steam p_steam m_steam p_cond T_cw_in T_cw_out p_cw
        eta_turbine eta_pump).c11_p = p_cw ∧
    (run_rankine T_steam p_steam m_steam p_cond T_cw_in T_cw_out p_cw
        eta_turbine eta_pump).c12_T = T_cw_out ∧
    (run_rankine T_steam p_steam m_steam p_cond T_cw_in T_cw_out p_cw
        eta_turbine eta_pump).tu_eta_s = eta_turbine ∧
    (run_rankine T_steam p_steam m_steam p_cond T_cw_in T_cw_out p_cw
        eta_turbine eta_pump).fp_eta_s = eta_pump ∧
    (run_rankine T_steam p_steam m_steam p_cond T_cw_in T_cw_out p_cw
        eta_turbine eta_pump).c1_water = 1 ∧
    (run_rankine T_steam p_steam m_steam p_cond T_cw_in T_cw_out p_cw
        eta_turbine eta_pump).c11_water = 1 ∧
    (run_rankine T_steam p_steam m_steam p_cond T_cw_in T_cw_out p_cw
        eta_turbine eta_pump).mc_pr1 = 1 ∧
    (run_rankine T_steam p_steam m_steam p_cond T_cw_in T_cw_out p_cw
        eta_turbine eta_pump).mc_pr2 = 98/100 ∧
    (run_rankine T_steam p_steam m_steam p_cond T_cw_in T_cw_out p_cw
        eta_turbine eta_pump).sg_pr = 9/10 :=
  ⟨rfl, rfl, rfl, rfl, rfl, rfl, rfl, rfl, rfl, rfl, rfl, rfl, rfl, rfl⟩

/-- Claim C6: with all other options fixed at the example configuration,
a larger turbine isentropic efficiency yields a strictly larger net
power output at the converged state. -/
theorem net_power_monotone_in_turbine_eta (ep e1 e2 : ℚ) (s1 s2 : RankineState)
    (hc1 : IsConverged e1 ep s1) (hc2 : IsConverged e2 ep s2)
    (h0 : 0 ≤ e1) (hlt : e1 < e2) :
    net_power_output s1 < net_power_output s2 := by
  obtain rfl := converged_eq_stateFor e1 ep s1 hc1
  obtain rfl := converged_eq_stateFor e2 ep s2 hc2
  unfold net_power_output
  rw [turbine_power_stateFor e1 ep h0, turbine_power_stateFor e2 ep (by linarith),
    pump_power_stateFor e1 ep, pump_power_stateFor e2 ep]
  linarith

theorem net_power_monotone_in_turbine_eta_witness :
    net_power_output (stateFor (4/5) (3/4)) < net_power_output (stateFor (9/10) (3/4)) :=
  net_power_monotone_in_turbine_eta (3/4) (4/5) (9/10) _ _
    (stateFor_converged _ _) (stateFor_converged _ _) (by norm_num) (by norm_num)

/-- Claim C7: solving is deterministic and idempotent - any two states
that satisfy the full residual system for the same specifications are
identical, so two fresh solves of the same configuration expose the
same converged state and derived results. -/
theorem solve_idempotent (e_t e_p : ℚ) (s1 s2 : RankineState)
    (hc1 : IsConverged e_t e_p s1) (hc2 : IsConverged e_t e_p s2) :
    s1 = s2 := by
  rw [converged_eq_stateFor e_t e_p s1 hc1, converged_eq_stateFor e_t e_p s2 hc2]

theorem solve_idempotent_witness :
    stateFor (9/10) (3/4) = stateFor (9/10) (3/4) :=
  solve_idempotent (9/10) (3/4) _ _ (stateFor_converged _ _) (stateFor_converged _ _)

/-- Claim C8: at every converged solution the cycle closer is a
zero-residual pass-through: pressure, enthalpy and mass flow on its
outlet connection c1 equal those on its inlet connection c0. -/
theorem cycle_closer_pass_through (e_t e_p : ℚ) (s : RankineState)
    (hc : IsConverged e_t e_p s) :
    s.p1 = s.p0 ∧ s.h1 = s.h0 ∧ s.m1 = s.m0 := by
  refine ⟨hc.cc_p, hc.cc_h, ?_⟩
  rw [hc.sg_mass, hc.fp_mass, hc.mc_mass1, hc.tu_mass]

theorem cycle_closer_pass_through_witness :
    (stateFor (9/10) (3/4)).p1 = (stateFor (9/10) (3/4)).p0 ∧
    (stateFor (9/10) (3/4)).h1 = (stateFor (9/10) (3/4)).h0 ∧
    (stateFor (9/10) (3/4)).m1 = (stateFor (9/10) (3/4)).m0 :=
  cycle_closer_pass_through (9/10) (3/4) _ (stateFor_converged _ _)

/-- Claim C9: every sidebar input satisfies
`T_cw_out > T_cw_in` because the outlet slider lower bound is the
selected inlet temperature plus 1 °C, so the cooling water stream
always absorbs heat in the condenser (outlet enthalpy above inlet
enthalpy). -/
theorem cooling_water_outlet_hotter (u : UIInputs) (h : ReachableUI u) :
    u.T_cw_in < u.T_cw_out ∧ h_cw u.T_cw_in < h_cw u.T_cw_out := by
  obtain ⟨-, -, -, -, -, -, -, -, -, -, hco, -⟩ := h
  constructor
  · linarith
  · unfold h_cw
    linarith

theorem cooling_water_outlet_hotter_witness :
    uExample.T_cw_in < uExample.T_cw_out ∧
    h_cw uExample.T_cw_in < h_cw uExample.T_cw_out :=
  cooling_water_outlet_hotter uExample (by norm_num [ReachableUI, uExample])

/-- Claim C10: the denominator of the coal flow computation
`coal_flow = boiler_heat_duty / (coal_cv * boiler_eff)` is strictly
positive for every reachable sidebar input, since the UI enforces
`coal_cv >= 1000` and a boiler efficiency slider of at least 50 %. -/
theorem coal_flow_denominator_positive (u : UIInputs) (h : ReachableUI u) :
    0 < u.coal_cv * boiler_eff u := by
  obtain ⟨-, -, -, -, -, -, -, -, -, -, -, -, -, -, -, -, -, -, hcv, -, hpct, -⟩ := h
  unfold boiler_eff
  have h1 : (0:ℚ) < u.coal_cv := by linarith
  have h2 : (0:ℚ) < u.boiler_eff_pct / 100 := by
    apply div_pos <;> linarith
  exact mul_pos h1 h2

theorem coal_flow_denominator_positive_witness :
    0 < uExample.coal_cv * boiler_eff uExample :=
  coal_flow_denominator_positive uExample (by norm_num [ReachableUI, uExample])

end CoalPlant
